import Mathlib

/-!
Shallow embedding of the episode controller in src/src/game_env.py
(class GameEnv): step / reset / get_state / turn_reward / epoch_ending /
choose_action / pre_launch_setup / activate_engine.

Modelling choices:
* Telemetry streams (krpc add_stream handles: altitude, pitch, heading,
  crew) deliver one value per call.  We model each stream as a function
  from the read index to the value, and keep a per-stream read counter in
  the environment state; every call to the stream returns the value at
  the current index and bumps the counter.  This captures exactly the
  "fresh sample per call" behaviour of the Python streams, including a
  collaborator whose readings differ on successive calls.
* Python floats are embedded as exact rationals.
* math.sin(math.radians h) and math.cos(math.radians h) are calls into
  the Python math library, external to the repository; they are modelled
  as arbitrary collaborator-supplied functions msin, mcos, which no claim
  constrains numerically.
* vessel.situation is read as the string str(self.vessel.situation) and
  compared with "VesselSituation.flying"; it is modelled as a string
  supplied by the collaborator.
* print calls are console side effects; the altitude read inside the
  success-branch print of epoch_ending is kept (it bumps the stream
  counter), the text itself is dropped.
* The busy-wait `while self.ut() - start_act <= 0.1` reads only the ut
  stream and mutates none of the modelled state, so it is elided.
* Python `exit(...)` in reset raises SystemExit, terminating the
  process; reset is embedded as Except String, where `.error` is the
  fatal process termination (no environment state survives it).
-/

namespace Kerbal

/-- External collaborator: telemetry streams, the vessel situation
string, whether the quick save "revivekerbals" exists, and the math
library's sin/cos of radians-of-degrees. -/
structure Ext where
  altS : ℕ → ℚ
  pitchS : ℕ → ℚ
  headS : ℕ → ℚ
  crewS : ℕ → ℕ
  situation : String
  hasQuickSave : Bool

/-- How many times each telemetry stream has been read so far. -/
structure Counts where
  alt : ℕ
  pitch : ℕ
  head : ℕ
  crew : ℕ
deriving DecidableEq

/-- The vessel control state (self.vessel.control). -/
structure Controls where
  pitch : ℚ
  yaw : ℚ
  roll : ℚ
  throttle : ℚ
  sas : Bool
  rcs : Bool
deriving DecidableEq

/-- Mutable state of the GameEnv instance: max_alt (ceiling fixed at
construction), altitude_max, counter, prev_pitch, the vessel controls,
and the stream read counters. -/
structure GameEnv where
  max_alt : ℚ
  altitude_max : ℚ
  counter : ℕ
  prev_pitch : ℚ
  control : Controls
  counts : Counts
deriving DecidableEq

def altRead (ext : Ext) (e : GameEnv) : ℚ := ext.altS e.counts.alt

def bumpAlt (e : GameEnv) : GameEnv :=
  { e with counts := { e.counts with alt := e.counts.alt + 1 } }

def pitchRead (ext : Ext) (e : GameEnv) : ℚ := ext.pitchS e.counts.pitch

def bumpPitch (e : GameEnv) : GameEnv :=
  { e with counts := { e.counts with pitch := e.counts.pitch + 1 } }

def headRead (ext : Ext) (e : GameEnv) : ℚ := ext.headS e.counts.head

def bumpHead (e : GameEnv) : GameEnv :=
  { e with counts := { e.counts with head := e.counts.head + 1 } }

def crewRead (ext : Ext) (e : GameEnv) : ℕ := ext.crewS e.counts.crew

def bumpCrew (e : GameEnv) : GameEnv :=
  { e with counts := { e.counts with crew := e.counts.crew + 1 } }

/-- pre_launch_setup: sas off, rcs off, altitude_max 0, counter 0,
prev_pitch 90. -/
def pre_launch_setup (e : GameEnv) : GameEnv :=
  { e with control := { e.control with sas := false, rcs := false },
           altitude_max := 0, counter := 0, prev_pitch := 90 }

/-- set_telemetry: fresh streams are created on the connection, so the
stream read counters restart at 0. -/
def set_telemetry (e : GameEnv) : GameEnv :=
  { e with counts := { alt := 0, pitch := 0, head := 0, crew := 0 } }

/-- GameEnv.__init__(conn, max_alt=45000): set_telemetry, then
pre_launch_setup, then store max_alt.  The vessel's initial control
values come from the simulator, hence are a parameter. -/
def init (c : Controls) (max_alt : ℚ) : GameEnv :=
  pre_launch_setup
    { max_alt := max_alt, altitude_max := 0, counter := 0, prev_pitch := 90,
      control := c, counts := { alt := 0, pitch := 0, head := 0, crew := 0 } }

/-- Observation components 2 and 3 call the external math library;
msin h stands for math.sin(math.radians h), mcos h for
math.cos(math.radians h). -/
structure MathFns where
  msin : ℚ → ℚ
  mcos : ℚ → ℚ

/-- get_state: one altitude read, then for each of the two attitude
components a heading read followed by a pitch read (Python evaluates the
list elements, and their subterms, left to right). -/
def get_state (m : MathFns) (ext : Ext) (e : GameEnv) : List ℚ × GameEnv :=
  let a := altRead ext e
  let e1 := bumpAlt e
  let h1 := headRead ext e1
  let e2 := bumpHead e1
  let p1 := pitchRead ext e2
  let e3 := bumpPitch e2
  let h2 := headRead ext e3
  let e4 := bumpHead e3
  let p2 := pitchRead ext e4
  let e5 := bumpPitch e4
  ([((a + 0.2) / e.max_alt) / 1.2,
    m.msin h1 * (90 - p1) / 90,
    m.mcos h2 * (90 - p2) / 90], e5)

/-- choose_action: dispatch table on the action id; any value not in
0..8 falls through the if/elif chain and does nothing. -/
def choose_action (action : ℤ) (c : Controls) : Controls :=
  if action = 0 then c
  else if action = 1 then { c with pitch := -1 }
  else if action = 2 then { c with pitch := 1 }
  else if action = 3 then { c with roll := -1 }
  else if action = 4 then { c with roll := 1 }
  else if action = 5 then { c with yaw := -1 }
  else if action = 6 then { c with yaw := 1 }
  else if action = 7 then { c with throttle := 0 }
  else if action = 8 then { c with throttle := 1 }
  else c

/-- difference(turn_start_altitude=250, turn_end_altitude=45000): one
altitude read, fractal and turn_angle computed, one pitch read, returns
the absolute deviation.  The Python defaults 250 and 45000 are passed
explicitly here; turn_reward calls it with exactly those defaults. -/
def difference (ext : Ext) (turn_start_altitude turn_end_altitude : ℚ)
    (e : GameEnv) : ℚ × GameEnv :=
  let a := altRead ext e
  let e1 := bumpAlt e
  let fractal := (a - turn_start_altitude) / (turn_end_altitude - turn_start_altitude)
  let turn_angle := 90 - fractal * 90
  let p := pitchRead ext e1
  let e2 := bumpPitch e1
  (|turn_angle - p|, e2)

/-- turn_reward: 0 unless str(vessel.situation) == "VesselSituation.flying";
when flying, deviation from difference() (with its default arguments),
reward 1 if deviation < 10 else -1, then prev_pitch is set from a fresh
pitch read. -/
def turn_reward (ext : Ext) (e : GameEnv) : ℚ × GameEnv :=
  if ext.situation = "VesselSituation.flying" then
    let dp := difference ext 250 45000 e
    let reward : ℚ := if dp.1 < 10 then 1 else -1
    let p := pitchRead ext dp.2
    (reward, { bumpPitch dp.2 with prev_pitch := p })
  else (0, e)

/-- epoch_ending(reward, done): reads altitude; if it is at or above
max_alt, reward 1, done True (the success print performs one more
altitude read); otherwise reads crew: if 0, reward -1, done True; else
reward -1 and done is returned unchanged.  Note the incoming reward
parameter is overwritten on every path, exactly as in the source. -/
def epoch_ending (ext : Ext) (reward : ℚ) (done : Bool) (e : GameEnv) :
    (ℚ × Bool) × GameEnv :=
  let a := altRead ext e
  let e1 := bumpAlt e
  if a ≥ e.max_alt then
    ((1, true), bumpAlt e1)
  else
    let c := crewRead ext e1
    let e2 := bumpCrew e1
    if c = 0 then ((-1, true), e2)
    else ((-1, done), e2)

/-- step(action): zero pitch/yaw/roll controls, dispatch the action,
busy-wait on in-game time (elided: it touches no modelled state), then
get_state, turn_reward, epoch_ending, counter increment (reset to 0 when
done), and the altitude_max update, which reads altitude once for the
comparison and, when larger, once more for the assignment. -/
def step (m : MathFns) (ext : Ext) (action : ℤ) (e : GameEnv) :
    (List ℚ × ℚ × Bool) × GameEnv :=
  let done := false
  let e1 := { e with control := { e.control with pitch := 0, yaw := 0, roll := 0 } }
  let e2 := { e1 with control := choose_action action e1.control }
  let sp := get_state m ext e2
  let rp := turn_reward ext sp.2
  let rp2 := epoch_ending ext rp.1 done rp.2
  let reward := rp2.1.1
  let done2 := rp2.1.2
  let e4 := rp2.2
  let e5 := { e4 with counter := e4.counter + 1 }
  let e6 := if done2 then { e5 with counter := 0 } else e5
  let a1 := altRead ext e6
  let e7 := bumpAlt e6
  let e8 := if a1 > e7.altitude_max
            then { bumpAlt e7 with altitude_max := altRead ext e7 }
            else e7
  ((sp.1, reward, done2), e8)

/-- activate_engine(throttle=1.0): sets the throttle control and fires
the next stage (a collaborator side effect), then sleeps 2s. -/
def activate_engine (throttle : ℚ) (e : GameEnv) : GameEnv :=
  { e with control := { e.control with throttle := throttle } }

/-- reset(conn): altitude_max := 0; load the quick save "revivekerbals"
(on failure: print and exit, i.e. fatal process termination, modelled
as Except.error); sleep 3; set_telemetry; pre_launch_setup;
physics_warp_factor := 0 (collaborator side effect); get_state;
activate_engine(); return the state. -/
def reset (m : MathFns) (ext : Ext) (e : GameEnv) :
    Except String (List ℚ × GameEnv) :=
  let e1 := { e with altitude_max := 0 }
  if ext.hasQuickSave then
    let e2 := set_telemetry e1
    let e3 := pre_launch_setup e2
    let sp := get_state m ext e3
    let e4 := activate_engine 1 sp.2
    Except.ok (sp.1, e4)
  else
    Except.error "You have no quick save named revivekerbals. Terminating."

/-! Concrete fixtures used by witnesses and counterexamples. -/

/-- A math collaborator returning 0 for both trig components. -/
def mzero : MathFns := { msin := fun _ => 0, mcos := fun _ => 0 }

/-- A vessel control state with everything off. -/
def ctrl0 : Controls :=
  { pitch := 0, yaw := 0, roll := 0, throttle := 0, sas := false, rcs := false }

/-- An environment freshly constructed with the default ceiling 45000. -/
def env45k : GameEnv := init ctrl0 45000

/-- A collaborator whose readings are constant across calls: altitude
1000, pitch 80, heading 90, crew 1, situation pre-launch. -/
def extConst : Ext :=
  { altS := fun _ => 1000, pitchS := fun _ => 80, headS := fun _ => 90,
    crewS := fun _ => 1, situation := "VesselSituation.pre_launch",
    hasQuickSave := true }

/-- The same constant collaborator, but with the quick save missing. -/
def extNoSave : Ext :=
  { extConst with hasQuickSave := false }

/-- The constant collaborator, but reading altitude exactly 45000. -/
def ext45 : Ext :=
  { extConst with altS := fun _ => 45000 }

/-! Helper lemmas: none of the telemetry-sampling operations touches the
vessel control state. -/

theorem get_state_control (m : MathFns) (ext : Ext) (e : GameEnv) :
    (get_state m ext e).2.control = e.control := rfl

theorem difference_control (ext : Ext) (s t : ℚ) (e : GameEnv) :
    (difference ext s t e).2.control = e.control := rfl

theorem turn_reward_control (ext : Ext) (e : GameEnv) :
    (turn_reward ext e).2.control = e.control := by
  simp only [turn_reward]
  split_ifs <;> rfl

theorem epoch_ending_control (ext : Ext) (r : ℚ) (d : Bool) (e : GameEnv) :
    (epoch_ending ext r d e).2.control = e.control := by
  simp only [epoch_ending]
  split_ifs <;> rfl

theorem step_control (m : MathFns) (ext : Ext) (a : ℤ) (e : GameEnv) :
    (step m ext a e).2.control =
      choose_action a { e.control with pitch := 0, yaw := 0, roll := 0 } := by
  simp only [step]
  split_ifs <;>
    simp [bumpAlt, epoch_ending_control, turn_reward_control, get_state_control]

theorem choose_action_throttle (a : ℤ) (c : Controls) (h7 : a ≠ 7) (h8 : a ≠ 8) :
    (choose_action a c).throttle = c.throttle := by
  unfold choose_action
  split_ifs <;> simp_all

/-! Claim theorems. -/

/-- C9: choose_action(0) leaves the control state unchanged, and so does
any action id outside the dispatch table 0..8 (negative or greater than
8): both fall through without issuing a control command. -/
theorem C9_out_of_range_noop (c : Controls) (a : ℤ)
    (h : a = 0 ∨ a < 0 ∨ 8 < a) : choose_action a c = c := by
  unfold choose_action
  rcases h with h | h | h
  · simp [h]
  all_goals repeat rw [if_neg (by omega)]

theorem C9_out_of_range_noop_witness :
    ((9 : ℤ) = 0 ∨ (9 : ℤ) < 0 ∨ 8 < (9 : ℤ)) ∧ choose_action 9 ctrl0 = ctrl0 :=
  ⟨by decide, C9_out_of_range_noop ctrl0 9 (by decide)⟩

/-- C6: with ceiling 45000 and the crew alive, an altitude reading of
exactly 45000 makes the termination check report terminal (and the
success outcome): the comparison altitude >= max_alt is inclusive. -/
theorem C6_inclusive_ceiling (ext : Ext) (r : ℚ) (d : Bool) (e : GameEnv)
    (hM : e.max_alt = 45000) (ha : altRead ext e = 45000)
    (hc : ∀ i, ext.crewS i ≠ 0) :
    (epoch_ending ext r d e).1.2 = true ∧ (epoch_ending ext r d e).1.1 = 1 := by
  unfold epoch_ending
  rw [ha, hM]
  simp

theorem C6_inclusive_ceiling_witness :
    env45k.max_alt = 45000 ∧ altRead ext45 env45k = 45000 ∧
      (∀ i, ext45.crewS i ≠ 0) ∧
      ((epoch_ending ext45 0 false env45k).1.2 = true ∧
       (epoch_ending ext45 0 false env45k).1.1 = 1) :=
  ⟨rfl, rfl, fun i => Nat.one_ne_zero,
   C6_inclusive_ceiling ext45 0 false env45k rfl rfl (fun i => Nat.one_ne_zero)⟩

/-- C7: whenever the quick save exists, reset returns normally and the
resulting environment has step counter 0 and recorded maximum altitude
0, whatever the prior episode state was. -/
theorem C7_reset_zeroes (m : MathFns) (ext : Ext) (e : GameEnv)
    (h : ext.hasQuickSave = true) :
    (reset m ext e).toOption.map (fun p => (p.2.counter, p.2.altitude_max)) =
      some (0, 0) := by
  unfold reset
  rw [h]
  rfl

theorem C7_reset_zeroes_witness :
    extConst.hasQuickSave = true ∧
      (reset mzero extConst
          { env45k with counter := 57, altitude_max := 123456 }).toOption.map
        (fun p => (p.2.counter, p.2.altitude_max)) = some (0, 0) :=
  ⟨rfl, C7_reset_zeroes mzero extConst _ rfl⟩

/-- C8: when the quick save cannot be loaded, reset is a fatal hard
stop: it yields the distinct save-not-found error (in the source, a
printed message followed by exit, terminating the process) and never an
environment state from which step could be called. -/
theorem C8_reset_fatal (m : MathFns) (ext : Ext) (e : GameEnv)
    (h : ext.hasQuickSave = false) :
    reset m ext e =
        Except.error "You have no quick save named revivekerbals. Terminating." ∧
      ∀ s e', reset m ext e ≠ Except.ok (s, e') := by
  unfold reset
  rw [h]
  exact ⟨rfl, fun s e' => by simp⟩

theorem C8_reset_fatal_witness :
    extNoSave.hasQuickSave = false ∧
      (reset mzero extNoSave env45k =
          Except.error "You have no quick save named revivekerbals. Terminating." ∧
        ∀ s e', reset mzero extNoSave env45k ≠ Except.ok (s, e')) :=
  ⟨rfl, C8_reset_fatal mzero extNoSave env45k rfl⟩

/-- C10: at the start of every step exactly pitch, yaw and roll are
zeroed before the action dispatch (throttle, sas and rcs carry over into
the dispatch), and nothing after the dispatch touches the controls;
hence step leaves the throttle unchanged for every action other than 7
and 8, while activate_engine (used by reset) sets it to its argument, so
a throttle value persists across steps until the next throttle-setting
action. -/
theorem C10_throttle_persists (m : MathFns) (ext : Ext) (a : ℤ) (e : GameEnv)
    (t : ℚ) :
    (step m ext a e).2.control =
      choose_action a { e.control with pitch := 0, yaw := 0, roll := 0 } ∧
    (a ≠ 7 → a ≠ 8 → (step m ext a e).2.control.throttle = e.control.throttle) ∧
    (activate_engine t e).control.throttle = t := by
  refine ⟨step_control m ext a e, fun h7 h8 => ?_, rfl⟩
  rw [step_control]
  exact choose_action_throttle a _ h7 h8

theorem C10_throttle_persists_witness :
    (step mzero extConst 2 env45k).2.control =
      choose_action 2 { env45k.control with pitch := 0, yaw := 0, roll := 0 } ∧
    (step mzero extConst 2 env45k).2.control.throttle = env45k.control.throttle ∧
    (activate_engine 1 env45k).control.throttle = 1 :=
  ⟨(C10_throttle_persists mzero extConst 2 env45k 1).1,
   (C10_throttle_persists mzero extConst 2 env45k 1).2.1 (by decide) (by decide),
   (C10_throttle_persists mzero extConst 2 env45k 1).2.2⟩

/-- C5: the first observation component equals ((a+0.2)/max_alt)/1.2 for
the altitude a sampled by get_state; with max_alt = M > 0 it is strictly
increasing in a, equals 0.2/(1.2*M) at a = 0 and (M+0.2)/(1.2*M) at
a = M, and for 0 ≤ a ≤ M it lies in that closed interval. -/
theorem C5_normalized_altitude (m : MathFns) (ext : Ext) (e : GameEnv)
    (M a a' : ℚ) (hM : 0 < M) (hMe : e.max_alt = M)
    (ha : altRead ext e = a) (h0 : 0 ≤ a) (haM : a ≤ M) :
    (get_state m ext e).1.headI = ((a + 0.2) / M) / 1.2 ∧
    (a < a' → ((a + 0.2) / M) / 1.2 < ((a' + 0.2) / M) / 1.2) ∧
    ((0 + 0.2) / M) / 1.2 = 0.2 / (1.2 * M) ∧
    ((M + 0.2) / M) / 1.2 = (M + 0.2) / (1.2 * M) ∧
    0.2 / (1.2 * M) ≤ ((a + 0.2) / M) / 1.2 ∧
    ((a + 0.2) / M) / 1.2 ≤ (M + 0.2) / (1.2 * M) := by
  have lo : ((0 + 0.2) / M) / 1.2 = 0.2 / (1.2 * M) := by
    rw [div_div, zero_add, mul_comm]
  have hi : ((M + 0.2) / M) / 1.2 = (M + 0.2) / (1.2 * M) := by
    rw [div_div, mul_comm]
  refine ⟨?_, fun hlt => ?_, lo, hi, ?_, ?_⟩
  · simp only [get_state, List.headI]
    rw [ha, hMe]
  · gcongr
  · rw [← lo]
    gcongr
  · rw [← hi]
    gcongr

theorem C5_normalized_altitude_witness :
    (0:ℚ) < 45000 ∧ env45k.max_alt = 45000 ∧ altRead extConst env45k = 1000 ∧
      (0:ℚ) ≤ 1000 ∧ (1000:ℚ) ≤ 45000 ∧
      ((get_state mzero extConst env45k).1.headI = (((1000:ℚ) + 0.2) / 45000) / 1.2 ∧
       ((1000:ℚ) < 2000 → (((1000:ℚ) + 0.2) / 45000) / 1.2 < (((2000:ℚ) + 0.2) / 45000) / 1.2) ∧
       (((0:ℚ) + 0.2) / 45000) / 1.2 = 0.2 / (1.2 * 45000) ∧
       (((45000:ℚ) + 0.2) / 45000) / 1.2 = ((45000:ℚ) + 0.2) / (1.2 * 45000) ∧
       (0.2:ℚ) / (1.2 * 45000) ≤ (((1000:ℚ) + 0.2) / 45000) / 1.2 ∧
       (((1000:ℚ) + 0.2) / 45000) / 1.2 ≤ ((45000:ℚ) + 0.2) / (1.2 * 45000)) :=
  ⟨by norm_num, rfl, rfl, by norm_num, by norm_num,
   C5_normalized_altitude mzero extConst env45k 45000 1000 2000
     (by norm_num) rfl rfl (by norm_num) (by norm_num)⟩

/-- A collaborator reading altitude 50000 with a dead crew. -/
def extCrew0 : Ext :=
  { extConst with altS := fun _ => 50000, crewS := fun _ => 0 }

/-- A collaborator whose altitude readings differ on successive calls:
0 on the first read, 50000 on every later one. -/
def extJump : Ext :=
  { extConst with altS := fun k => if k = 0 then 0 else 50000 }

/-- A flying vessel read at altitude 45000 with pitch 0. -/
def extFly : Ext :=
  { extConst with situation := "VesselSituation.flying",
                  altS := fun _ => 45000, pitchS := fun _ => 0 }

/-- An environment constructed with ceiling max_alt = 90000. -/
def envM90 : GameEnv := init ctrl0 90000

/-- Following the claim's words (for comparison with the code): the
ideal gravity-turn pitch at altitude a, linearly interpolated between
turn-start altitude 250 and turn-end altitude max_alt. -/
def claimed_ideal_pitch (max_alt a : ℚ) : ℚ :=
  90 - 90 * (a - 250) / (max_alt - 250)

theorem epoch_ending_not_done (ext : Ext) (r : ℚ) (d : Bool) (e : GameEnv)
    (h : (epoch_ending ext r d e).1.2 = false) :
    (epoch_ending ext r d e).1.1 = -1 := by
  simp only [epoch_ending] at h ⊢
  split_ifs at h ⊢ <;> simp_all

/-- C1 as stated is false: with the vessel not in the flying situation
and no termination condition firing, the deviation policy value
(turn_reward) is 0, yet step returns reward -1, because epoch_ending
overwrites the freshly computed turn_reward value on its non-terminal
path. -/
theorem C1_counterexample :
    extConst.situation ≠ "VesselSituation.flying" ∧
    (turn_reward extConst env45k).1 = 0 ∧
    (step mzero extConst 0 env45k).1.2.2 = false ∧
    (step mzero extConst 0 env45k).1.2.1 = -1 := by
  have hs : ¬ (("VesselSituation.pre_launch" : String) = "VesselSituation.flying") := by
    decide
  refine ⟨by decide, ?_, ?_, ?_⟩ <;>
    norm_num [step, get_state, turn_reward, difference, epoch_ending,
      choose_action, altRead, pitchRead, headRead, crewRead, bumpAlt,
      bumpPitch, bumpHead, bumpCrew, extConst, env45k, init,
      pre_launch_setup, ctrl0, mzero, hs]

/-- C1 amended: for every step call whose termination conditions do not
fire (done = false), the reward returned by step equals -1 -- not the
deviation-from-gravity-turn policy value, which epoch_ending discards
by reassigning reward on every path. -/
theorem C1_amended (m : MathFns) (ext : Ext) (a : ℤ) (e : GameEnv)
    (h : (step m ext a e).1.2.2 = false) :
    (step m ext a e).1.2.1 = -1 := by
  simp only [step] at h ⊢
  exact epoch_ending_not_done _ _ _ _ h

theorem C1_amended_witness :
    (step mzero extConst 0 env45k).1.2.2 = false ∧
    (step mzero extConst 0 env45k).1.2.1 = -1 := by
  have hs : ¬ (("VesselSituation.pre_launch" : String) = "VesselSituation.flying") := by
    decide
  have h : (step mzero extConst 0 env45k).1.2.2 = false := by
    norm_num [step, get_state, turn_reward, difference, epoch_ending,
      choose_action, altRead, pitchRead, headRead, crewRead, bumpAlt,
      bumpPitch, bumpHead, bumpCrew, extConst, env45k, init,
      pre_launch_setup, ctrl0, mzero, hs]
  exact ⟨h, C1_amended mzero extConst 0 env45k h⟩

/-- C2 as stated is false: with the crew dead and the altitude at or
above the ceiling simultaneously, epoch_ending returns done = true but
with the success outcome reward = 1 (and 1 is not the crew-loss
reward -1), because the altitude check comes first in the if/elif
chain, not the crew check. -/
theorem C2_counterexample :
    (∀ i, extCrew0.crewS i = 0) ∧ altRead extCrew0 env45k ≥ env45k.max_alt ∧
    (epoch_ending extCrew0 0 false env45k).1.2 = true ∧
    (epoch_ending extCrew0 0 false env45k).1.1 = 1 ∧ (1 : ℚ) ≠ -1 := by
  refine ⟨fun i => rfl, ?_, ?_, ?_, by norm_num⟩ <;>
    norm_num [epoch_ending, altRead, crewRead, bumpAlt, bumpCrew,
      extCrew0, extConst, env45k, init, pre_launch_setup, ctrl0]

/-- C2 amended: whenever crew_count == 0 and altitude >= the ceiling
hold simultaneously at a step's termination check, the returned done
flag is true, but the success condition is checked first: the outcome
is that of success (reward 1), not vehicle/crew loss. -/
theorem C2_amended (ext : Ext) (r : ℚ) (d : Bool) (e : GameEnv)
    (hc : ∀ i, ext.crewS i = 0) (ha : altRead ext e ≥ e.max_alt) :
    (epoch_ending ext r d e).1.2 = true ∧ (epoch_ending ext r d e).1.1 = 1 := by
  simp only [epoch_ending]
  rw [if_pos ha]
  simp

theorem C2_amended_witness :
    (∀ i, extCrew0.crewS i = 0) ∧ altRead extCrew0 env45k ≥ env45k.max_alt ∧
      ((epoch_ending extCrew0 2 false env45k).1.2 = true ∧
       (epoch_ending extCrew0 2 false env45k).1.1 = 1) := by
  have ha : altRead extCrew0 env45k ≥ env45k.max_alt := by
    norm_num [altRead, extCrew0, extConst, env45k, init, pre_launch_setup, ctrl0]
  exact ⟨fun i => rfl, ha, C2_amended extCrew0 2 false env45k (fun i => rfl) ha⟩

/-- C3 as stated is false: against a collaborator whose altitude
readings differ on successive calls (0 on the first read, 50000 after),
a single step returns an observation whose altitude component was built
from the reading 0 -- which is far below the ceiling -- and yet reports
done = true, because epoch_ending resampled the altitude stream instead
of reusing the value get_state sampled. -/
theorem C3_counterexample :
    (step mzero extJump 0 env45k).1.1.headI = (((0:ℚ) + 0.2) / 45000) / 1.2 ∧
    (step mzero extJump 0 env45k).1.2.2 = true ∧
    ¬ ((0:ℚ) ≥ 45000) := by
  have hs : ¬ (("VesselSituation.pre_launch" : String) = "VesselSituation.flying") := by
    decide
  refine ⟨?_, ?_, by norm_num⟩ <;>
    norm_num [step, get_state, turn_reward, difference, epoch_ending,
      choose_action, altRead, pitchRead, headRead, crewRead, bumpAlt,
      bumpPitch, bumpHead, bumpCrew, extJump, extConst, env45k, init,
      pre_launch_setup, ctrl0, mzero, hs]

/-- C3 amended: telemetry is resampled at each use inside step --
get_state, turn_reward and epoch_ending each perform fresh stream
reads -- so the claimed agreement holds only when the collaborator's
readings are constant across calls: then the observation's altitude
component, the termination decision and the returned reward all use the
same altitude/pitch/crew values. -/
theorem C3_amended (m : MathFns) (ext : Ext) (a : ℤ) (e : GameEnv)
    (hA : ∀ i, ext.altS i = ext.altS 0)
    (hP : ∀ i, ext.pitchS i = ext.pitchS 0)
    (hC : ∀ i, ext.crewS i = ext.crewS 0) :
    (step m ext a e).1.1.headI = ((ext.altS 0 + 0.2) / e.max_alt) / 1.2 ∧
    ((step m ext a e).1.2.2 = true ↔
      (ext.altS 0 ≥ e.max_alt ∨ ext.crewS 0 = 0)) ∧
    (step m ext a e).1.2.1 = if ext.altS 0 ≥ e.max_alt then 1 else -1 := by
  have hA' : ∀ e', altRead ext e' = ext.altS 0 := fun e' => hA _
  have hP' : ∀ e', pitchRead ext e' = ext.pitchS 0 := fun e' => hP _
  have hC' : ∀ e', crewRead ext e' = ext.crewS 0 := fun e' => hC _
  have hM : ∀ e', (turn_reward ext e').2.max_alt = e'.max_alt := fun e' => by
    simp only [turn_reward]; split_ifs <;> rfl
  have hG : ∀ e', (get_state m ext e').2.max_alt = e'.max_alt := fun e' => rfl
  refine ⟨?_, ?_, ?_⟩
  · simp [step, get_state, hA']
  · simp only [step, epoch_ending, hA', hC', hM, hG]
    by_cases h1 : ext.altS 0 ≥ e.max_alt <;> by_cases h2 : ext.crewS 0 = 0 <;>
      simp [h1, h2, bumpAlt, bumpPitch, bumpHead, bumpCrew, hM, hG]
  · simp only [step, epoch_ending, hA', hC', hM, hG]
    by_cases h1 : ext.altS 0 ≥ e.max_alt <;> by_cases h2 : ext.crewS 0 = 0 <;>
      simp [h1, h2, bumpAlt, bumpPitch, bumpHead, bumpCrew, hM, hG]

theorem C3_amended_witness :
    (∀ i, extConst.altS i = extConst.altS 0) ∧
    (∀ i, extConst.pitchS i = extConst.pitchS 0) ∧
    (∀ i, extConst.crewS i = extConst.crewS 0) ∧
    ((step mzero extConst 0 env45k).1.1.headI =
        ((extConst.altS 0 + 0.2) / env45k.max_alt) / 1.2 ∧
      ((step mzero extConst 0 env45k).1.2.2 = true ↔
        (extConst.altS 0 ≥ env45k.max_alt ∨ extConst.crewS 0 = 0)) ∧
      (step mzero extConst 0 env45k).1.2.1 =
        if extConst.altS 0 ≥ env45k.max_alt then 1 else -1) :=
  ⟨fun i => rfl, fun i => rfl, fun i => rfl,
   C3_amended mzero extConst 0 env45k (fun i => rfl) (fun i => rfl) (fun i => rfl)⟩

/-- C4 as stated is false: in an environment constructed with ceiling
max_alt = 90000 and a flying vessel read at altitude 45000 and pitch 0,
turn_reward returns 1 (code deviation 0, since difference interpolates
up to its default turn_end_altitude 45000), while the claim's ideal
pitch interpolated up to max_alt would deviate from the pitch by more
than 10 degrees and make the policy reward -1. -/
theorem C4_counterexample :
    envM90.max_alt = 90000 ∧
    (turn_reward extFly envM90).1 = 1 ∧
    |claimed_ideal_pitch envM90.max_alt (extFly.altS 0) - extFly.pitchS 0| ≥ 10 := by
  refine ⟨rfl, ?_, ?_⟩
  · norm_num [turn_reward, difference, altRead, pitchRead, bumpAlt, bumpPitch,
      extFly, extConst, envM90, init, pre_launch_setup, ctrl0]
  · have h : claimed_ideal_pitch envM90.max_alt (extFly.altS 0) - extFly.pitchS 0
        = 16200 / 359 := by
      norm_num [claimed_ideal_pitch, extFly, extConst, envM90, init,
        pre_launch_setup, ctrl0]
    rw [h, abs_of_pos (by norm_num)]
    norm_num

/-- C4 amended: the deviation used by the gravity-turn reward is the
absolute difference between the current pitch and an ideal pitch
linearly interpolated between turn-start altitude 250 and the fixed
turn-end altitude 45000 (the default argument of difference, with which
turn_reward always calls it); it does not depend on the environment's
constructed ceiling max_alt. -/
theorem C4_amended (ext : Ext) (e : GameEnv) (M : ℚ) :
    (difference ext 250 45000 e).1 =
      |90 - (altRead ext e - 250) / (45000 - 250) * 90 - pitchRead ext e| ∧
    (turn_reward ext { e with max_alt := M }).1 = (turn_reward ext e).1 := by
  constructor
  · rfl
  · dsimp only [turn_reward, difference, altRead, pitchRead, bumpAlt, bumpPitch]
    split_ifs <;> rfl

end Kerbal
